import Mathlib

/-!
Shallow embedding of the yt-downloader API server's job admission, rate
limiting, job lifecycle, status merge, and session verification logic.

Sources:
- `api-server/src/routes/publicApi.ts` (guest clip creation, rate limit,
  public status route)
- `api-server/src/routes/video.ts` (download/retry route, private status route)
- `api-server/src/routes/auth.ts` (logout, change-password)
- `api-server/src/middleware/auth.ts` (requirePrivateToken)
- `api-server/src/services/queueService.ts` (addDownloadJob)
- `api-server/src/services/progressService.ts` (getProgress)
- `api-server/src/utils/validators.ts` (validateYoutubeUrl, validateTimeRange,
  validateFormatPreference, validateResolutionPreference, parseVideoIdFromUrl)
- `api-server/src/models/Video.ts` (status enum)

Redis and MongoDB are modelled as explicit state (lists / counters); the
`makeId` random id generator is modelled as a deterministic fresh-id supply;
wall-clock values (`resetAt`) are omitted where no claim depends on them.
-/

namespace YtD

/-- JS `\w` character class (ASCII) plus `-`, i.e. the `[\w-]` class used by
the YouTube URL patterns in `validators.ts`. -/
def idChar (c : Char) : Bool :=
  c.isAlpha || c.isDigit || c == '_' || c == '-'

/-- Does `head` occur literally at the start of `s`?  Returns the remainder on
success (regex-literal matching). -/
def stripHead : List Char → List Char → Option (List Char)
  | [], rest => some rest
  | _ :: _, [] => none
  | h :: hs, c :: cs => if h == c then stripHead hs cs else none

/-- `([\w-]{11})` capture: exactly 11 id characters must follow. -/
def takeId11 (cs : List Char) : Option String :=
  let firstEleven := cs.take 11
  if firstEleven.length == 11 && firstEleven.all idChar then
    some (String.mk firstEleven)
  else none

/-- The anchored part of one of the `YOUTUBE_URL_PATTERNS`: a literal head
followed by 11 `[\w-]` characters.  `test` with a `^`-anchored pattern is a
head match on the string. -/
def headMatchesId11 (head : List Char) (s : List Char) : Bool :=
  match stripHead head s with
  | some rest => (takeId11 rest).isSome
  | none => false

/-- All literal expansions of `YOUTUBE_URL_PATTERNS` from `validators.ts`
(`https?` and optional `www.` expanded). -/
def youtubeUrlHeads : List String :=
  [ "http://youtube.com/watch?v=", "http://www.youtube.com/watch?v=",
    "https://youtube.com/watch?v=", "https://www.youtube.com/watch?v=",
    "http://youtu.be/", "https://youtu.be/",
    "http://youtube.com/live/", "http://www.youtube.com/live/",
    "https://youtube.com/live/", "https://www.youtube.com/live/",
    "http://youtube.com/shorts/", "http://www.youtube.com/shorts/",
    "https://youtube.com/shorts/", "https://www.youtube.com/shorts/" ]

/-- `validateYoutubeUrl` from `validators.ts`.  An empty string is falsy in
JS, hence reported as `URL is required`. -/
def validateYoutubeUrl (url : String) : Bool × Option String :=
  if url.data == [] then (false, some "URL is required")
  else if youtubeUrlHeads.any (fun h => headMatchesId11 h.data url.data) then
    (true, none)
  else (false, some "Invalid YouTube URL format")

/-- Unanchored regex search: try the heads at every position, left to right
(JS `String.match` semantics for `/(head)([\w-]{11})/`). -/
def scanForId : List (List Char) → List Char → Option String
  | _, [] => none
  | heads, c :: cs =>
    match heads.findSome? (fun h =>
      match stripHead h (c :: cs) with
      | some rest => takeId11 rest
      | none => none) with
    | some found => some found
    | none => scanForId heads cs

/-- `parseVideoIdFromUrl` from `validators.ts`: three regexes tried in
order, each searched over the whole string. -/
def parseVideoIdFromUrl (url : String) : Option String :=
  match scanForId ["?v=".data, "&v=".data] url.data with
  | some found => some found
  | none =>
    match scanForId ["youtu.be/".data] url.data with
    | some found => some found
    | none => scanForId ["youtube.com/live/".data, "youtube.com/shorts/".data] url.data

/-- `validateTimeRange` from `validators.ts` (times are already numbers in
this model, so the `typeof` guard is vacuous). -/
def validateTimeRange (startTime endTime maxDuration : Int) : Bool × Option String :=
  if startTime < 0 then (false, some "Start time cannot be negative")
  else if endTime ≤ startTime then (false, some "End time must be greater than start time")
  else if endTime - startTime > maxDuration then
    (false, some ("Duration exceeds maximum of " ++ toString maxDuration ++ " seconds"))
  else (true, none)

/-- `validateFormatPreference` from `validators.ts`. -/
def validateFormatPreference (format : String) : Bool × Option String :=
  if format == "mp4" || format == "webm" || format == "best" then (true, none)
  else (false, some "Invalid format. Supported: mp4, webm, best")

/-- `validateResolutionPreference` from `validators.ts`. -/
def validateResolutionPreference (resolution : String) : Bool × Option String :=
  if ["best", "worst", "2160p", "1440p", "1080p", "720p", "480p", "360p",
      "240p", "144p", "4320p"].contains resolution then (true, none)
  else (false, some "Invalid resolution")

/-- `status` enum of the `Video` mongoose schema (`models/Video.ts`). -/
inductive VideoStatus
  | pending
  | processing
  | completed
  | failed
  | expired
deriving DecidableEq, Repr

/-- String rendering of a `VideoStatus`, as stored / serialized by mongoose. -/
def statusToString : VideoStatus → String
  | .pending => "pending"
  | .processing => "processing"
  | .completed => "completed"
  | .failed => "failed"
  | .expired => "expired"

/-- The fields of a `Video` document that the routes under verification read
or write (`models/Video.ts`).  `id` is a surrogate for the mongo `_id`. -/
structure VideoRecord where
  id : Nat
  user_id : String
  source_type : String
  url : Option String
  youtube_video_id : Option String
  start_time : Option Int
  end_time : Option Int
  status : VideoStatus
  file_path : Option String
  storage_mode : String
  error_message : Option String
  format_preference : Option String
  resolution_preference : Option String
  job_type : Option String
  job_id : Option String
deriving DecidableEq, Repr

/-- The `job:{jobId}:progress` Redis hash written by `queueService` and the
worker, read by `progressService.getProgress`.  Numeric fields are stored as
decimal strings in Redis and parsed back with `parseFloat`; they are modelled
directly as numbers. -/
structure ProgressEntry where
  status : String
  current_phase : String
  download_progress : Nat
  encoding_progress : Nat
deriving DecidableEq, Repr

/-- A serialized download-job message RPUSHed to the download queue
(`queueService.addDownloadJob`). -/
structure QueueJob where
  job_id : String
  video_id : String
  user_id : String
  url : String
  start_time : Int
  end_time : Int
  format_preference : String
  resolution_preference : String
deriving DecidableEq, Repr

/-- The configuration values the routes read from `config` (`app.ts`); all of
them come from environment variables (defaults: rateLimit 10,
maxClipDuration 40, defaultVideoFormat "mp4", defaultVideoResolution "best"),
so they are parameters of the model. -/
structure AppConfig where
  rateLimit : Nat
  maxClipDuration : Int
  defaultVideoFormat : String
  defaultVideoResolution : String
  s3EndpointUrl : String
  s3BucketName : String
deriving Repr

/-- `storageService.getDirectUrl`. -/
def getDirectUrl (cfg : AppConfig) (objectName : String) : String :=
  cfg.s3EndpointUrl ++ "/" ++ cfg.s3BucketName ++ "/" ++ objectName

/-- The shared stores as seen by one API-server request for one fixed guest
fingerprint on one fixed UTC day: `counter` is the value at
`rate_limit:public:{fingerprint}`, `videos` the mongo collection, `queue` the
Redis download list, `progress` the `job:{id}:progress` hashes.  `queueUp`
models whether the RPUSH inside `addDownloadJob` succeeds (Redis reachable)
or throws.  `nextVideoId` / `nextJobId` are deterministic supplies standing
in for mongo `_id` generation and `makeId(32)`. -/
structure ServerState where
  counter : Nat
  videos : List VideoRecord
  queue : List QueueJob
  progress : List (String × ProgressEntry)
  nextVideoId : Nat
  nextJobId : Nat
  queueUp : Bool
deriving DecidableEq, Repr

/-- JS truthiness of an optional string field (`!!x`): present and non-empty. -/
def jsTruthy : Option String → Bool
  | some s => s ≠ ""
  | none => false

/-- JS `x || d` for an optional string: the default replaces both absent and
empty values. -/
def jsOrStr (o : Option String) (d : String) : String :=
  match o with
  | some s => if s == "" then d else s
  | none => d

/-- Redis `HSET` on the progress hashes: overwrite the hash at `k`. -/
def progressSet (l : List (String × ProgressEntry)) (k : String) (e : ProgressEntry) :
    List (String × ProgressEntry) :=
  (k, e) :: l.filter (fun kv => kv.1 ≠ k)

/-- `progressService.getProgress`: read the `job:{jobId}:progress` hash,
`none` when missing. -/
def getProgress (l : List (String × ProgressEntry)) (jobId : String) : Option ProgressEntry :=
  (l.find? (fun kv => kv.1 == jobId)).map (·.2)

/-- `checkRateLimit`'s return shape (the wall-clock `resetAt` field is
omitted; no claim under verification depends on it). -/
structure RateLimitInfo where
  allowed : Bool
  remaining : Nat
  limit : Nat
deriving DecidableEq, Repr

/-- `checkRateLimit` from `routes/publicApi.ts`, for the fixed fingerprint:
read the counter; at or above the limit deny without mutation; below it
increment and report `limit - current - 1` remaining.  Returns the rate-limit
info together with the new counter value. -/
def checkRateLimit (limit current : Nat) : RateLimitInfo × Nat :=
  if current ≥ limit then
    ({ allowed := false, remaining := 0, limit := limit }, current)
  else
    ({ allowed := true, remaining := limit - current - 1, limit := limit }, current + 1)

/-- Guest placeholder owner id used by the public routes. -/
def guestId : String := "000000000000000000000000"

/-- Deterministic stand-in for `makeId(32)`. -/
def mkJobId (n : Nat) : String := "job-" ++ toString n

/-- The progress hash initialized by `queueService.addDownloadJob`. -/
def initialProgress : ProgressEntry :=
  { status := "queued", current_phase := "queued",
    download_progress := 0, encoding_progress := 0 }

/-- Payload of `queueService.addDownloadJob` (without the generated job id). -/
structure DownloadPayload where
  video_id : String
  user_id : String
  url : String
  start_time : Int
  end_time : Int
  format_preference : String
  resolution_preference : String
deriving DecidableEq, Repr

/-- `queueService.addDownloadJob`: generate a job id, RPUSH the serialized
job, initialize the progress hash with phase `queued`.  `none` models the
RPUSH throwing because Redis is unavailable (`queueUp = false`), in which
case nothing is persisted and the caller's `catch` fires. -/
def addDownloadJob (st : ServerState) (p : DownloadPayload) : Option (String × ServerState) :=
  if st.queueUp then
    let jobId := mkJobId st.nextJobId
    let job : QueueJob :=
      { job_id := jobId, video_id := p.video_id, user_id := p.user_id, url := p.url,
        start_time := p.start_time, end_time := p.end_time,
        format_preference := p.format_preference,
        resolution_preference := p.resolution_preference }
    some (jobId,
      { st with
        queue := st.queue ++ [job],
        progress := progressSet st.progress jobId initialProgress,
        nextJobId := st.nextJobId + 1 })
  else none

/-- Body of `POST /api/public/clip`.  `start_time` / `end_time`: `none` means
absent or `null` (caught by the missing-fields check); `some none` means a
present value whose `parseInt` is `NaN`; `some (some n)` parses to `n`. -/
structure ClipRequest where
  url : Option String
  start_time : Option (Option Int)
  end_time : Option (Option Int)
  format : Option String
  resolution : Option String
deriving DecidableEq, Repr

/-- Outcome of `POST /api/public/clip`:
`created` is the 201 response, `rateLimited` the 429, `badRequest` a 400
validation failure (ValidationError), `serverError` the 500 produced by the
surrounding `catch`. -/
inductive ClipResult
  | created (job_id : String) (remaining : Nat) (limit : Nat)
  | rateLimited (remaining : Nat) (limit : Nat)
  | badRequest (error : String)
  | serverError
deriving DecidableEq, Repr

/-- `POST /api/public/clip` from `routes/publicApi.ts`, acting on the shared
state for the caller's fingerprint.  Faithful ordering: rate limit first
(consuming quota when allowed), then missing-fields check, URL validation,
numeric parse, time-range validation, then `Video.create` (status
`processing`), `addDownloadJob`, and the `video.job_id = jobId; save()`
update.  An exception from `addDownloadJob` lands in the route's `catch`
(500) with the already-created video record left in place. -/
def postClip (cfg : AppConfig) (st : ServerState) (req : ClipRequest) :
    ClipResult × ServerState :=
  let rl := (checkRateLimit cfg.rateLimit st.counter).1
  let st1 : ServerState := { st with counter := (checkRateLimit cfg.rateLimit st.counter).2 }
  if !rl.allowed then
    (.rateLimited rl.remaining rl.limit, st1)
  else
      match req.url, req.start_time, req.end_time with
      | some url, some s, some e =>
        if url == "" then
          (.badRequest "Missing required fields: url, start_time, end_time", st1)
        else if !(validateYoutubeUrl url).1 then
          (.badRequest ((validateYoutubeUrl url).2.getD ""), st1)
        else
          match s, e with
          | some startNum, some endNum =>
            if !(validateTimeRange startNum endNum cfg.maxClipDuration).1 then
              (.badRequest ((validateTimeRange startNum endNum cfg.maxClipDuration).2.getD ""), st1)
            else
              let video : VideoRecord :=
                { id := st1.nextVideoId, user_id := guestId, source_type := "youtube",
                  url := some url, youtube_video_id := parseVideoIdFromUrl url,
                  start_time := some startNum, end_time := some endNum,
                  status := .processing, file_path := none, storage_mode := "local",
                  error_message := none,
                  format_preference := some (jsOrStr req.format "mp4"),
                  resolution_preference := some (jsOrStr req.resolution "best"),
                  job_type := some "download", job_id := none }
              let st2 : ServerState :=
                { st1 with videos := st1.videos ++ [video],
                           nextVideoId := st1.nextVideoId + 1 }
              match addDownloadJob st2
                  { video_id := toString video.id, user_id := guestId, url := url,
                    start_time := startNum, end_time := endNum,
                    format_preference := jsOrStr req.format "mp4",
                    resolution_preference := jsOrStr req.resolution "best" } with
              | none => (.serverError, st2)
              | some (jobId, st3) =>
                (.created jobId rl.remaining rl.limit,
                 { st3 with videos := st3.videos.map (fun v =>
                     if v.id == video.id then { v with job_id := some jobId } else v) })
          | _, _ => (.badRequest "Invalid time values", st1)
      | _, _, _ =>
        (.badRequest "Missing required fields: url, start_time, end_time", st1)

/-- Sequential `POST /api/public/clip` calls from the same fingerprint. -/
def runClips (cfg : AppConfig) : ServerState → List ClipRequest → List ClipResult × ServerState
  | st, [] => ([], st)
  | st, r :: rs =>
    let out := postClip cfg st r
    let rest := runClips cfg out.2 rs
    (out.1 :: rest.1, rest.2)

/-- Is a clip result the 201 success? -/
def isCreated : ClipResult → Bool
  | .created _ _ _ => true
  | _ => false

/-- Number of successful creations in a result list. -/
def countCreated (rs : List ClipResult) : Nat := rs.countP (fun r => isCreated r)

/-- Response body of `GET /api/public/status/:jobId`. -/
structure StatusResponseBody where
  job_id : String
  status : String
  progress : Nat
  current_phase : String
  file_ready : Bool
  error_message : Option String
deriving DecidableEq, Repr

/-- `Video.findOne({ job_id: jobId })`. -/
def findVideoByJob (videos : List VideoRecord) (jobId : String) : Option VideoRecord :=
  videos.find? (fun v => v.job_id == some jobId)

/-- `GET /api/public/status/:jobId` from `routes/publicApi.ts`: merge the
progress hash and the video record.  `status` is
`video?.status || progress?.status || 'unknown'`; `current_phase` is
`progress?.current_phase || 'initializing'`; numeric progress defaults to 0.
This route never 404s. -/
def getStatusRoute (st : ServerState) (jobId : String) : StatusResponseBody :=
  let progress := getProgress st.progress jobId
  let video := findVideoByJob st.videos jobId
  { job_id := jobId
    status :=
      match video with
      | some v => statusToString v.status
      | none =>
        match progress with
        | some p => if p.status == "" then "unknown" else p.status
        | none => "unknown"
    progress :=
      match progress with
      | some p => p.download_progress
      | none => 0
    current_phase :=
      match progress with
      | some p => if p.current_phase == "" then "initializing" else p.current_phase
      | none => "initializing"
    file_ready :=
      match video with
      | some v => v.status == .completed && jsTruthy v.file_path
      | none => false
    error_message := video.bind (·.error_message) }

/-- Body of `POST /api/video/download/:videoId`. -/
structure DownloadBody where
  format_preference : Option String
  resolution_preference : Option String
deriving DecidableEq, Repr

/-- Outcome of `POST /api/video/download/:videoId`:
`completedLink` is the direct-URL response for a completed s3-stored file,
`processingResp` the 202 returned while a job is in flight, `queuedResp` the
success response after (re-)enqueueing, `serverError` the 500 from the
route's `catch`. -/
inductive DownloadResult
  | notFound
  | forbidden
  | badRequest (error : String)
  | completedLink (download_url : String)
  | processingResp (job_id : Option String)
  | queuedResp (job_id : String)
  | serverError
deriving DecidableEq, Repr

/-- Tail of the download route once no early return fired: apply the
in-memory `failed → pending` reset (status cleared, error cleared — on the
un-saved mongoose document), enqueue via `addDownloadJob`, then persist the
document with status `processing`, the new job id and the preferences.  If
the enqueue throws, the `catch` answers 500 and the document is never saved,
so the stored record is unchanged.  The `video.url!` / `video.start_time!` /
`video.end_time!` non-null assertions are modelled with defaults. -/
def downloadEnqueue (st : ServerState) (video : VideoRecord)
    (reqUserId formatPref resolutionPref : String) : DownloadResult × ServerState :=
  match addDownloadJob st
      { video_id := toString video.id, user_id := reqUserId,
        url := video.url.getD "", start_time := video.start_time.getD 0,
        end_time := video.end_time.getD 0,
        format_preference := formatPref, resolution_preference := resolutionPref } with
  | none => (.serverError, st)
  | some (jobId, st2) =>
    let err2 : Option String :=
      if video.status == .failed then none else video.error_message
    let video2 : VideoRecord :=
      { video with
        status := .processing,
        error_message := err2,
        job_id := some jobId,
        format_preference := some formatPref,
        resolution_preference := some resolutionPref }
    (.queuedResp jobId,
     { st2 with videos := st2.videos.map (fun v =>
         if v.id == video.id then video2 else v) })

/-- `POST /api/video/download/:videoId` from `routes/video.ts` (the
download / retry route, behind `requirePrivateToken`; `reqUserId` is the
authenticated `req.userId`).  Faithful branch order: preference validation
(only when differing from the configured default), lookup, ownership check,
completed-with-s3-file short circuit, processing short circuit, the
`failed → pending` retry reset, then enqueue and save with status
`processing`.  Note that a `completed` video whose file is missing or not
s3-stored, and an `expired` or `pending` video, all fall through to the
enqueue path. -/
def postDownload (cfg : AppConfig) (st : ServerState) (videoId : Nat)
    (reqUserId : String) (body : DownloadBody) : DownloadResult × ServerState :=
  let formatPref := jsOrStr body.format_preference cfg.defaultVideoFormat
  let resolutionPref := jsOrStr body.resolution_preference cfg.defaultVideoResolution
  if formatPref ≠ cfg.defaultVideoFormat && !(validateFormatPreference formatPref).1 then
    (.badRequest ((validateFormatPreference formatPref).2.getD ""), st)
  else if resolutionPref ≠ cfg.defaultVideoResolution &&
      !(validateResolutionPreference resolutionPref).1 then
    (.badRequest ((validateResolutionPreference resolutionPref).2.getD ""), st)
  else
    match st.videos.find? (fun v => v.id == videoId) with
    | none => (.notFound, st)
    | some video =>
      if video.user_id ≠ reqUserId then (.forbidden, st)
      else if video.status == .completed && jsTruthy video.file_path &&
          video.storage_mode == "s3" then
        (.completedLink (getDirectUrl cfg (video.file_path.getD "")), st)
      else if video.status == .processing then
        (.processingResp video.job_id, st)
      else
        downloadEnqueue st video reqUserId formatPref resolutionPref

/-- Payload carried by a verified JWT (`utils/token.ts`). -/
structure TokenPayload where
  user_id : String
  session_id : Option String
  type : String
deriving DecidableEq, Repr

/-- A presented bearer token: `hash` is the sha256 of the raw token string
(the session-cache key); `payload` is `jwt.verify`'s result, `none` when the
signature check fails. -/
structure PrivToken where
  hash : String
  payload : Option TokenPayload
deriving DecidableEq, Repr

/-- A `Session` document (`models/Session.ts`); `expires_at` as an epoch
instant. -/
structure SessionRec where
  id : String
  user_id : String
  expires_at : Int
deriving DecidableEq, Repr

/-- The two session stores consulted by `requirePrivateToken`: the durable
`sessions` collection and the Redis `session:{tokenHash}` cache. -/
structure AuthState where
  sessions : List SessionRec
  cache : List (String × String)
deriving DecidableEq, Repr

/-- Redis `GET session:{k}`. -/
def cacheGet (cache : List (String × String)) (k : String) : Option String :=
  (cache.find? (fun kv => kv.1 == k)).map (·.2)

/-- Redis `SET session:{k}`. -/
def cacheSet (cache : List (String × String)) (k v : String) : List (String × String) :=
  (k, v) :: cache.filter (fun kv => kv.1 ≠ k)

/-- Outcome of `requirePrivateToken` (`middleware/auth.ts`): `ok` lets the
request proceed with `req.userId` / `req.sessionId` set; the others are the
route's 401 responses. -/
inductive AuthResult
  | ok (userId : String) (sessionId : Option String)
  | tokenRequired
  | invalidToken
  | sessionInvalid
deriving DecidableEq, Repr

/-- The filter of the durable-session fallback query
`Session.findOne({_id: payload.session_id, user_id: payload.user_id,
expires_at: {$gt: new Date()}})`. -/
def sessionMatches (payload : TokenPayload) (now : Int) (s : SessionRec) : Bool :=
  payload.session_id == some s.id &&
  s.user_id == payload.user_id &&
  decide (now < s.expires_at)

/-- `requirePrivateToken` from `middleware/auth.ts`: extract the bearer
token; verify signature and `type === 'private'`; consult the Redis cache by
token hash first; on a miss, query the durable `Session` collection filtered
by `_id = payload.session_id`, `user_id = payload.user_id` and
`expires_at > now`; reject if neither store confirms a session, and
repopulate the cache after a durable hit. -/
def requirePrivateToken (now : Int) (st : AuthState) (tok : Option PrivToken) :
    AuthResult × AuthState :=
  match tok with
  | none => (.tokenRequired, st)
  | some t =>
    match t.payload with
    | none => (.invalidToken, st)
    | some payload =>
      if payload.type ≠ "private" then (.invalidToken, st)
      else
        match cacheGet st.cache t.hash with
        | some _ => (.ok payload.user_id payload.session_id, st)
        | none =>
          match st.sessions.find? (sessionMatches payload now) with
          | none => (.sessionInvalid, st)
          | some _ =>
            (.ok payload.user_id payload.session_id,
             { st with cache := cacheSet st.cache t.hash payload.user_id })

/-- `POST /api/auth/logout` from `routes/auth.ts`: after
`requirePrivateToken` succeeds, `Session.deleteOne({_id: req.sessionId})`
(session ids are unique) and a best-effort delete of the presented token's
cache entry. -/
def logoutRoute (now : Int) (st : AuthState) (tok : Option PrivToken) :
    AuthResult × AuthState :=
  match requirePrivateToken now st tok with
  | (.ok uid sid, st1) =>
    let st2 : AuthState :=
      { st1 with sessions :=
          match sid with
          | some s => st1.sessions.filter (fun r => r.id ≠ s)
          | none => st1.sessions }
    let st3 : AuthState :=
      match tok with
      | some t => { st2 with cache := st2.cache.filter (fun kv => kv.1 ≠ t.hash) }
      | none => st2
    (.ok uid sid, st3)
  | other => other

/-- The session effect of `POST /api/auth/change-password` from
`routes/auth.ts` on the path where the bcrypt check of the current password
and the new-password validation succeed (password hashing itself is external
crypto): after `requirePrivateToken`, `Session.deleteMany({user_id})` deletes
every session of the owner.  The route does not touch the Redis
session cache. -/
def changePasswordSessions (now : Int) (st : AuthState) (tok : Option PrivToken) :
    AuthResult × AuthState :=
  match requirePrivateToken now st tok with
  | (.ok uid sid, st1) =>
    (.ok uid sid, { st1 with sessions := st1.sessions.filter (fun r => r.user_id ≠ uid) })
  | other => other

/-! ### Concrete fixtures used by witnesses and counterexamples -/

/-- The configuration with the source's default values (`app.ts`):
`PUBLIC_API_RATE_LIMIT` 10, `PUBLIC_API_MAX_CLIP_DURATION` 40,
`DEFAULT_VIDEO_FORMAT` "mp4", `DEFAULT_VIDEO_RESOLUTION` "best". -/
def cfg0 : AppConfig :=
  { rateLimit := 10, maxClipDuration := 40, defaultVideoFormat := "mp4",
    defaultVideoResolution := "best", s3EndpointUrl := "http://s3", s3BucketName := "b" }

/-- Fresh shared state: empty stores, zero counter, Redis reachable. -/
def st0 : ServerState :=
  { counter := 0, videos := [], queue := [], progress := [],
    nextVideoId := 0, nextJobId := 0, queueUp := true }

/-- An in-bounds guest clip request (40 s against the 40 s ceiling). -/
def reqGood : ClipRequest :=
  { url := some "https://youtu.be/abcdefghijk", start_time := some (some 0),
    end_time := some (some 40), format := none, resolution := none }

/-- A guest clip request whose descriptor fails validation (45 s against the
40 s ceiling). -/
def reqBad : ClipRequest :=
  { url := some "https://youtu.be/abcdefghijk", start_time := some (some 0),
    end_time := some (some 45), format := none, resolution := none }

/-- Fresh state whose Redis queue push fails. -/
def stQ : ServerState := { st0 with queueUp := false }

/-- A request body for the download route with no explicit preferences. -/
def emptyBody : DownloadBody := { format_preference := none, resolution_preference := none }

/-- A completed video whose file is stored locally (not s3). -/
def vC2 : VideoRecord :=
  { id := 0, user_id := "u1", source_type := "youtube",
    url := some "https://youtu.be/abcdefghijk", youtube_video_id := some "abcdefghijk",
    start_time := some 0, end_time := some 10, status := .completed,
    file_path := some "a.mp4", storage_mode := "local", error_message := none,
    format_preference := some "mp4", resolution_preference := some "best",
    job_type := some "download", job_id := some "jX" }

/-- State holding only `vC2`. -/
def stC2 : ServerState :=
  { counter := 0, videos := [vC2], queue := [], progress := [],
    nextVideoId := 1, nextJobId := 0, queueUp := true }

/-- A completed, s3-stored video with job id `j1`. -/
def vC5 : VideoRecord :=
  { id := 0, user_id := guestId, source_type := "youtube",
    url := some "https://youtu.be/abcdefghijk", youtube_video_id := some "abcdefghijk",
    start_time := some 0, end_time := some 10, status := .completed,
    file_path := some "clips/a.mp4", storage_mode := "s3", error_message := none,
    format_preference := some "mp4", resolution_preference := some "best",
    job_type := some "download", job_id := some "j1" }

/-- State where `vC5` is terminal but a stale Progress Entry for `j1` still
shows the `downloading` phase. -/
def stC5 : ServerState :=
  { counter := 0, videos := [vC5],
    queue := [],
    progress := [("j1", { status := "downloading", current_phase := "downloading",
                          download_progress := 50, encoding_progress := 0 })],
    nextVideoId := 1, nextJobId := 0, queueUp := true }

/-- A pending (never dispatched) video of owner `u1`. -/
def vC6 : VideoRecord :=
  { id := 0, user_id := "u1", source_type := "youtube",
    url := some "https://youtu.be/abcdefghijk", youtube_video_id := some "abcdefghijk",
    start_time := some 0, end_time := some 10, status := .pending,
    file_path := none, storage_mode := "local", error_message := none,
    format_preference := none, resolution_preference := none,
    job_type := some "download", job_id := none }

/-- State holding only `vC6`. -/
def stC6 : ServerState :=
  { counter := 0, videos := [vC6], queue := [], progress := [],
    nextVideoId := 1, nextJobId := 0, queueUp := true }

/-- A failed video of owner `u1` with a stored error. -/
def vFail : VideoRecord :=
  { vC6 with status := .failed, error_message := some "boom" }

/-- State holding only `vFail`. -/
def stFail : ServerState :=
  { stC6 with videos := [vFail] }

/-- Two live sessions of the same owner. -/
def sess1 : SessionRec := { id := "s1", user_id := "alice", expires_at := 100 }

/-- Second live session of the same owner. -/
def sess2 : SessionRec := { id := "s2", user_id := "alice", expires_at := 100 }

/-- A private token bound to `sess1`, present in the cache. -/
def tok1 : PrivToken :=
  { hash := "h1",
    payload := some { user_id := "alice", session_id := some "s1", type := "private" } }

/-- A private token bound to `sess2`, not in the cache. -/
def tok2 : PrivToken :=
  { hash := "h2",
    payload := some { user_id := "alice", session_id := some "s2", type := "private" } }

/-- Auth stores holding both sessions and a cache entry for `tok1` only. -/
def authSt0 : AuthState :=
  { sessions := [sess1, sess2], cache := [("h1", "alice")] }

/-- A processing video of owner `u1` with job id `jP`. -/
def vProc : VideoRecord := { vC6 with status := .processing, job_id := some "jP" }

/-- State holding only `vProc`. -/
def stProc : ServerState := { stC6 with videos := [vProc] }

/-- A structurally valid private token whose session exists in no store. -/
def tokBadSession : PrivToken :=
  { hash := "h3",
    payload := some { user_id := "alice", session_id := some "ghost", type := "private" } }

/-! ### Helper lemmas -/

/-- On success `addDownloadJob` only appends the job to the queue,
initializes the job's progress hash, and bumps the id supply. -/
theorem addDownloadJob_eq_some {st : ServerState} {p : DownloadPayload} {j : String}
    {st' : ServerState} (h : addDownloadJob st p = some (j, st')) :
    j = mkJobId st.nextJobId ∧
    st' = { st with
            queue := st.queue ++
              [{ job_id := mkJobId st.nextJobId, video_id := p.video_id,
                 user_id := p.user_id, url := p.url,
                 start_time := p.start_time, end_time := p.end_time,
                 format_preference := p.format_preference,
                 resolution_preference := p.resolution_preference }],
            progress := progressSet st.progress (mkJobId st.nextJobId) initialProgress,
            nextJobId := st.nextJobId + 1 } := by
  unfold addDownloadJob at h
  split at h
  · simp only [Option.some.injEq, Prod.mk.injEq] at h
    obtain ⟨hj, hst⟩ := h
    subst hj
    exact ⟨rfl, hst.symm⟩
  · exact absurd h (by simp)

/-- When the fingerprint counter has reached the limit, the clip route
answers 429 with `remaining = 0` and leaves every store untouched. -/
theorem postClip_of_ge {cfg : AppConfig} {st : ServerState} (req : ClipRequest)
    (h : st.counter ≥ cfg.rateLimit) :
    postClip cfg st req = (.rateLimited 0 cfg.rateLimit, st) := by
  simp [postClip, checkRateLimit, h]

/-- Below the limit, every clip call — allowed by the rate limiter —
increments the fingerprint counter by one, whatever happens afterwards. -/
theorem postClip_counter_of_lt {cfg : AppConfig} {st : ServerState} (req : ClipRequest)
    (h : st.counter < cfg.rateLimit) :
    (postClip cfg st req).2.counter = st.counter + 1 := by
  have h' : ¬ (st.counter ≥ cfg.rateLimit) := by omega
  simp only [postClip, checkRateLimit, if_neg h', Bool.not_true, Bool.not_false,
    if_false, Bool.false_eq_true]
  rcases req with ⟨u, s, e, f, r⟩
  rcases u with _ | u <;> rcases s with _ | s <;> rcases e with _ | e <;>
    simp only [] <;> try rfl
  split
  · rfl
  split
  · rfl
  rcases s with _ | sN <;> rcases e with _ | eN <;> simp only [] <;> try rfl
  split
  · rfl
  split
  · rfl
  · rename_i jobId st3 heq
    have h2 := (addDownloadJob_eq_some heq).2
    subst h2
    rfl

/-- `addDownloadJob` fails iff the queue push fails. -/
theorem addDownloadJob_eq_none {st : ServerState} {p : DownloadPayload}
    (h : st.queueUp = false) : addDownloadJob st p = none := by
  unfold addDownloadJob
  rw [if_neg (by simp [h])]

/-- Reading back a freshly written progress hash. -/
theorem getProgress_progressSet (l : List (String × ProgressEntry)) (k : String)
    (e : ProgressEntry) : getProgress (progressSet l k e) k = some e := by
  unfold getProgress progressSet
  simp

/-- A failing lookup still fails on any filtered sublist. -/
theorem find?_filter_none {α} (p q : α → Bool) (l : List α) (h : l.find? p = none) :
    (l.filter q).find? p = none := by
  rw [List.find?_eq_none] at h ⊢
  intro x hx
  exact h x (List.mem_of_mem_filter hx)

/-- A cache miss survives the best-effort deletion of another entry. -/
theorem cacheGet_filter_none {cache : List (String × String)} {k hsh : String}
    (hk : cacheGet cache k = none) :
    cacheGet (cache.filter (fun kv => kv.1 ≠ hsh)) k = none := by
  unfold cacheGet at hk ⊢
  cases hfind : cache.find? (fun kv => kv.1 == k) with
  | none => rw [find?_filter_none _ _ _ hfind]; rfl
  | some v => rw [hfind] at hk; simp at hk

/-- The number of 201 responses over any sequence of clip calls from one
fingerprint is bounded by the quota still available at the start. -/
theorem countCreated_runClips (cfg : AppConfig) (st : ServerState)
    (reqs : List ClipRequest) :
    countCreated (runClips cfg st reqs).1 ≤ cfg.rateLimit - st.counter := by
  induction reqs generalizing st with
  | nil => simp [runClips, countCreated]
  | cons r rs ih =>
    by_cases hc : st.counter ≥ cfg.rateLimit
    · simp only [runClips, postClip_of_ge r hc, countCreated, List.countP_cons]
      have hrest := ih st
      simp only [countCreated] at hrest
      simpa [isCreated] using hrest
    · have hlt : st.counter < cfg.rateLimit := by omega
      simp only [runClips, countCreated, List.countP_cons]
      have hcnt := @postClip_counter_of_lt cfg st r hlt
      have hrest := ih (postClip cfg st r).2
      rw [hcnt] at hrest
      simp only [countCreated] at hrest
      have hone : (if isCreated (postClip cfg st r).1 = true then 1 else 0) ≤ 1 := by
        split <;> omega
      omega

end YtD

namespace YtD

/-! ### Claim theorems -/

/-- C9 (confirmed): for every job id with no Job Record and no Progress
Entry, the public status operation does not fail with a not-found error: it
returns a well-formed response with status "unknown", progress 0 and phase
"initializing". -/
theorem C9_unknown_job_status (st : ServerState) (jobId : String)
    (hv : findVideoByJob st.videos jobId = none)
    (hp : getProgress st.progress jobId = none) :
    getStatusRoute st jobId =
      { job_id := jobId, status := "unknown", progress := 0,
        current_phase := "initializing", file_ready := false, error_message := none } := by
  simp [getStatusRoute, hv, hp]

/-- C9 witness: the property evaluated on the empty store. -/
theorem C9_witness :
    findVideoByJob st0.videos "nojob" = none ∧
    getProgress st0.progress "nojob" = none ∧
    getStatusRoute st0 "nojob" =
      { job_id := "nojob", status := "unknown", progress := 0,
        current_phase := "initializing", file_ready := false, error_message := none } :=
  ⟨by decide, by decide, C9_unknown_job_status st0 "nojob" (by decide) (by decide)⟩

/-- C3 (confirmed): for a fixed fingerprint and day, `checkRateLimit` at
`count ≥ N` denies with `remaining = 0` and no mutation; at `count < N` it
increments and reports `remaining = N - count - 1`; a clip create finding the
counter at the limit answers RateLimitExceeded with `remaining = 0`, changes
no state and creates no Job Record; and across any sequence of sequential
creates at most `N - counter` succeed. -/
theorem C3_rate_limit_enforced (limit current : Nat) (cfg : AppConfig)
    (st : ServerState) (req : ClipRequest) (reqs : List ClipRequest) :
    (current ≥ limit →
      checkRateLimit limit current =
        ({ allowed := false, remaining := 0, limit := limit }, current)) ∧
    (current < limit →
      checkRateLimit limit current =
        ({ allowed := true, remaining := limit - current - 1, limit := limit }, current + 1)) ∧
    (st.counter ≥ cfg.rateLimit →
      postClip cfg st req = (.rateLimited 0 cfg.rateLimit, st)) ∧
    countCreated (runClips cfg st reqs).1 ≤ cfg.rateLimit - st.counter := by
  refine ⟨?_, ?_, ?_, ?_⟩
  · intro h; unfold checkRateLimit; rw [if_pos h]
  · intro h; unfold checkRateLimit; rw [if_neg (Nat.not_le.mpr h)]
  · intro h; exact postClip_of_ge req h
  · exact countCreated_runClips cfg st reqs

/-- C3 witness: the four parts at the default limit 10, including the
eleventh sequential call being rejected with `remaining = 0`. -/
theorem C3_witness :
    checkRateLimit 10 10 = ({ allowed := false, remaining := 0, limit := 10 }, 10) ∧
    checkRateLimit 10 3 = ({ allowed := true, remaining := 6, limit := 10 }, 4) ∧
    postClip cfg0 { st0 with counter := 10 } reqGood =
      (.rateLimited 0 10, { st0 with counter := 10 }) ∧
    countCreated (runClips cfg0 st0 (List.replicate 11 reqGood)).1 ≤ 10 ∧
    (runClips cfg0 st0 (List.replicate 11 reqGood)).1.getLast? =
      some (.rateLimited 0 10) := by
  refine ⟨(C3_rate_limit_enforced 10 10 cfg0 st0 reqGood []).1 (by decide),
          (C3_rate_limit_enforced 10 3 cfg0 st0 reqGood []).2.1 (by decide),
          (C3_rate_limit_enforced 10 0 cfg0 { st0 with counter := 10 } reqGood []).2.2.1
            (by decide),
          ?_, by decide⟩
  have h := (C3_rate_limit_enforced 10 0 cfg0 st0 reqGood (List.replicate 11 reqGood)).2.2.2
  simpa using h

/-- C8 (confirmed): private-token verification grants access only when a
live session is confirmed — the cache is consulted first by token hash; on a
miss the durable Session table is queried by session id, owner and
not-expired, repopulating the cache on a hit; if neither store confirms a
session, verification fails even though the payload is structurally a valid
private token. -/
theorem C8_private_token_session_required (now : Int) (st : AuthState)
    (t : PrivToken) (p : TokenPayload) (c : String)
    (hp : t.payload = some p) (htype : p.type = "private") :
    (cacheGet st.cache t.hash = some c →
      requirePrivateToken now st (some t) = (.ok p.user_id p.session_id, st)) ∧
    (cacheGet st.cache t.hash = none →
      st.sessions.find? (sessionMatches p now) = none →
      requirePrivateToken now st (some t) = (.sessionInvalid, st)) ∧
    (∀ srec, cacheGet st.cache t.hash = none →
      st.sessions.find? (sessionMatches p now) = some srec →
      requirePrivateToken now st (some t) =
        (.ok p.user_id p.session_id,
         { st with cache := cacheSet st.cache t.hash p.user_id })) := by
  simp only [requirePrivateToken, hp]
  rw [if_neg (by simp [htype])]
  refine ⟨?_, ?_, ?_⟩
  · intro hc; rw [hc]
  · intro hc hs; rw [hc, hs]
  · intro srec hc hs; rw [hc, hs]


/-- C8 witness: the three paths on the two-session store. -/
theorem C8_witness :
    (requirePrivateToken 0 authSt0 (some tok1) = (.ok "alice" (some "s1"), authSt0)) ∧
    (requirePrivateToken 0 authSt0 (some tokBadSession) = (.sessionInvalid, authSt0)) ∧
    (requirePrivateToken 0 authSt0 (some tok2) =
      (.ok "alice" (some "s2"),
       { authSt0 with cache := cacheSet authSt0.cache "h2" "alice" })) := by
  refine ⟨(C8_private_token_session_required 0 authSt0 tok1
            { user_id := "alice", session_id := some "s1", type := "private" } "alice"
            (by decide) (by decide)).1 (by decide),
          (C8_private_token_session_required 0 authSt0 tokBadSession
            { user_id := "alice", session_id := some "ghost", type := "private" } "x"
            (by decide) (by decide)).2.1 (by decide) (by decide),
          (C8_private_token_session_required 0 authSt0 tok2
            { user_id := "alice", session_id := some "s2", type := "private" } "x"
            (by decide) (by decide)).2.2 sess2 (by decide) (by decide)⟩

/-- C1 counterexample: at the default configuration, an unauthenticated
create whose descriptor exceeds the guest duration ceiling (45 s against
40 s) does return ValidationError, but the fingerprint counter moves from 0
to 1, and a subsequent in-bounds create reports remaining 8 instead of the
9 it would report had the rejected call consumed no quota. -/
theorem C1_counterexample :
    (postClip cfg0 st0 reqBad).1 = .badRequest "Duration exceeds maximum of 40 seconds" ∧
    st0.counter = 0 ∧
    (postClip cfg0 st0 reqBad).2.counter = 1 ∧
    (postClip cfg0 st0 reqGood).1 = .created "job-0" 9 10 ∧
    (postClip cfg0 ((postClip cfg0 st0 reqBad).2) reqGood).1 = .created "job-0" 8 10 := by
  decide

/-- C1 amended (corrected): the clip route consumes quota *before*
validating the descriptor — for every call below the limit whose time range
fails validation, the response is ValidationError yet the fingerprint
counter has been incremented by one, so a subsequent in-bounds create from
the same fingerprint has one less remaining quota than before the rejected
call. -/
theorem C1_quota_consumed_before_validation (cfg : AppConfig) (st : ServerState)
    (url : String) (s e : Int) (fmt res : Option String)
    (hq : st.counter < cfg.rateLimit)
    (hurl0 : url ≠ "")
    (hurl : (validateYoutubeUrl url).1 = true)
    (ht : (validateTimeRange s e cfg.maxClipDuration).1 = false) :
    postClip cfg st
      { url := some url, start_time := some (some s), end_time := some (some e),
        format := fmt, resolution := res } =
      (.badRequest ((validateTimeRange s e cfg.maxClipDuration).2.getD ""),
       { st with counter := st.counter + 1 }) := by
  have h' : ¬ (st.counter ≥ cfg.rateLimit) := by omega
  simp [postClip, checkRateLimit, if_neg h', hurl0, hurl, ht]

/-- C1 witness: the amended theorem at the 45 s-against-40 s descriptor. -/
theorem C1_witness :
    st0.counter < cfg0.rateLimit ∧
    (validateTimeRange 0 45 cfg0.maxClipDuration).1 = false ∧
    postClip cfg0 st0 reqBad =
      (.badRequest ((validateTimeRange 0 45 cfg0.maxClipDuration).2.getD ""),
       { st0 with counter := st0.counter + 1 }) :=
  ⟨by decide, by decide,
   C1_quota_consumed_before_validation cfg0 st0 "https://youtu.be/abcdefghijk" 0 45 none none
     (by decide) (by decide) (by decide) (by decide)⟩

/-- C7 counterexample: with the queue push failing, a valid guest create
answers 500 and leaves behind a Video record with non-terminal status
`processing` and no job id, while the queue and the progress store stay
empty — exactly the dangling record the claim rules out. -/
theorem C7_counterexample :
    (postClip cfg0 stQ reqGood).1 = .serverError ∧
    ((postClip cfg0 stQ reqGood).2.videos.map (fun v => (v.status, v.job_id))) =
      [(VideoStatus.processing, none)] ∧
    (postClip cfg0 stQ reqGood).2.queue = [] ∧
    getProgress (postClip cfg0 stQ reqGood).2.progress "job-0" = none := by
  decide

/-- C7 amended (corrected): if the enqueue step of create fails, the route's
`catch` answers an internal error and the Job Record written in the
preceding step stays in the store as a non-terminal (`processing`) record
with no job id, no queue entry and no progress entry; create neither rolls
the record back nor marks it failed. -/
theorem C7_dangling_record_on_enqueue_failure (cfg : AppConfig) (st : ServerState)
    (url : String) (s e : Int) (fmt res : Option String)
    (hdown : st.queueUp = false)
    (hq : st.counter < cfg.rateLimit)
    (hurl0 : url ≠ "")
    (hurl : (validateYoutubeUrl url).1 = true)
    (ht : (validateTimeRange s e cfg.maxClipDuration).1 = true) :
    (postClip cfg st
      { url := some url, start_time := some (some s), end_time := some (some e),
        format := fmt, resolution := res }).1 = .serverError ∧
    (postClip cfg st
      { url := some url, start_time := some (some s), end_time := some (some e),
        format := fmt, resolution := res }).2 =
      { st with
        counter := st.counter + 1,
        videos := st.videos ++
          [{ id := st.nextVideoId, user_id := guestId, source_type := "youtube",
             url := some url, youtube_video_id := parseVideoIdFromUrl url,
             start_time := some s, end_time := some e, status := .processing,
             file_path := none, storage_mode := "local", error_message := none,
             format_preference := some (jsOrStr fmt "mp4"),
             resolution_preference := some (jsOrStr res "best"),
             job_type := some "download", job_id := none }],
        nextVideoId := st.nextVideoId + 1 } := by
  have h' : ¬ (st.counter ≥ cfg.rateLimit) := by omega
  have hnone : ∀ p : DownloadPayload,
      addDownloadJob { st with
        counter := st.counter + 1,
        videos := st.videos ++
          [{ id := st.nextVideoId, user_id := guestId, source_type := "youtube",
             url := some url, youtube_video_id := parseVideoIdFromUrl url,
             start_time := some s, end_time := some e, status := .processing,
             file_path := none, storage_mode := "local", error_message := none,
             format_preference := some (jsOrStr fmt "mp4"),
             resolution_preference := some (jsOrStr res "best"),
             job_type := some "download", job_id := none }],
        nextVideoId := st.nextVideoId + 1 } p = none := by
    intro p
    exact addDownloadJob_eq_none hdown
  simp [postClip, checkRateLimit, if_neg h', hurl0, hurl, ht, hnone]

/-- C7 witness: the amended theorem on the fresh state with the queue
down. -/
theorem C7_witness :
    stQ.queueUp = false ∧
    (postClip cfg0 stQ reqGood).1 = .serverError ∧
    (postClip cfg0 stQ reqGood).2 =
      { stQ with
        counter := stQ.counter + 1,
        videos := stQ.videos ++
          [{ id := stQ.nextVideoId, user_id := guestId, source_type := "youtube",
             url := some "https://youtu.be/abcdefghijk",
             youtube_video_id := parseVideoIdFromUrl "https://youtu.be/abcdefghijk",
             start_time := some 0, end_time := some 40, status := .processing,
             file_path := none, storage_mode := "local", error_message := none,
             format_preference := some (jsOrStr none "mp4"),
             resolution_preference := some (jsOrStr none "best"),
             job_type := some "download", job_id := none }],
        nextVideoId := stQ.nextVideoId + 1 } :=
  ⟨by decide,
   (C7_dangling_record_on_enqueue_failure cfg0 stQ "https://youtu.be/abcdefghijk" 0 40
      none none (by decide) (by decide) (by decide) (by decide) (by decide)).1,
   (C7_dangling_record_on_enqueue_failure cfg0 stQ "https://youtu.be/abcdefghijk" 0 40
      none none (by decide) (by decide) (by decide) (by decide) (by decide)).2⟩

/-- C4 counterexample: a successful guest create writes its Job Record with
status `processing`, not `pending` as claimed. -/
theorem C4_counterexample :
    isCreated (postClip cfg0 st0 reqGood).1 = true ∧
    ((postClip cfg0 st0 reqGood).2.videos.map (fun v => v.status)) = [.processing] ∧
    VideoStatus.processing ≠ VideoStatus.pending := by
  decide

/-- C4 amended (corrected): every successful create writes the new Job
Record with status `processing` (not `pending`), generates a job id and
stores it on the record, and initializes a Progress Entry whose phase is
`queued`, before any worker has acted on the job. -/
theorem C4_created_job_processing_queued (cfg : AppConfig) (st : ServerState)
    (req : ClipRequest) (jobId : String) (rem lim : Nat)
    (h : (postClip cfg st req).1 = .created jobId rem lim) :
    ∃ v ∈ (postClip cfg st req).2.videos,
      v.job_id = some jobId ∧ v.status = .processing ∧
      getProgress (postClip cfg st req).2.progress jobId = some initialProgress ∧
      initialProgress.current_phase = "queued" ∧ initialProgress.status = "queued" := by
  rcases hps : postClip cfg st req with ⟨r, st'⟩
  rw [hps] at h
  simp only at h
  subst h
  by_cases hc : st.counter ≥ cfg.rateLimit
  · rw [postClip_of_ge req hc] at hps
    exact absurd hps (by simp)
  · have h' : ¬ (st.counter ≥ cfg.rateLimit) := hc
    simp only [postClip, checkRateLimit, if_neg h', Bool.not_true, Bool.not_false,
      if_false, Bool.false_eq_true] at hps
    rcases req with ⟨u, s, e, f, rr⟩
    rcases u with _ | u
    · exact absurd hps (by simp)
    rcases s with _ | s
    · exact absurd hps (by simp)
    rcases e with _ | e
    · exact absurd hps (by simp)
    simp only [] at hps
    split at hps
    · exact absurd hps (by simp)
    split at hps
    · exact absurd hps (by simp)
    rcases s with _ | sN
    · rcases e with _ | eN <;> exact absurd hps (by simp)
    rcases e with _ | eN
    · exact absurd hps (by simp)
    simp only [] at hps
    split at hps
    · exact absurd hps (by simp)
    split at hps
    · exact absurd hps (by simp)
    · rename_i jid st3 heq
      obtain ⟨hj, hst3⟩ := addDownloadJob_eq_some heq
      simp only [Prod.mk.injEq, ClipResult.created.injEq] at hps
      obtain ⟨⟨hjid, -, -⟩, hst'⟩ := hps
      subst hjid
      subst hst'
      subst hst3
      subst hj
      refine ⟨_, List.mem_map.mpr ⟨_, List.mem_append_right _ (List.mem_singleton.mpr rfl), rfl⟩, ?_, ?_, ?_, rfl, rfl⟩
      · simp
      · simp
      · simp only []
        rw [getProgress_progressSet]

/-- C4 witness: the amended theorem on the first job of a fresh state. -/
theorem C4_witness :
    (postClip cfg0 st0 reqGood).1 = .created "job-0" 9 10 ∧
    ∃ v ∈ (postClip cfg0 st0 reqGood).2.videos,
      v.job_id = some "job-0" ∧ v.status = .processing ∧
      getProgress (postClip cfg0 st0 reqGood).2.progress "job-0" = some initialProgress ∧
      initialProgress.current_phase = "queued" ∧ initialProgress.status = "queued" :=
  ⟨by decide, C4_created_job_processing_queued cfg0 st0 reqGood "job-0" 9 10 (by decide)⟩

/-- C5 counterexample: for a completed Job Record with a stale Progress
Entry still showing phase `downloading`, the public status route reports the
terminal status but also the non-terminal phase `downloading` taken from the
Progress Entry — the merged view is not built from the Job Record alone. -/
theorem C5_counterexample :
    vC5.status = .completed ∧
    (getStatusRoute stC5 "j1").status = "completed" ∧
    (getStatusRoute stC5 "j1").current_phase = "downloading" ∧
    ("downloading" : String) ≠ "completed" ∧ ("downloading" : String) ≠ "failed" ∧
    ("downloading" : String) ≠ "expired" := by
  decide

/-- C5 amended (corrected): whenever a Job Record exists, the status route's
top-level `status` field comes from the Job Record (so a terminal status is
reported and never downgraded), but the `current_phase` field is still taken
from the Progress Entry when one is present — or defaults to `initializing`
— so the view can pair a terminal status with a non-terminal phase. -/
theorem C5_terminal_status_kept_phase_from_progress (st : ServerState) (jobId : String)
    (v : VideoRecord) (hv : findVideoByJob st.videos jobId = some v) :
    (getStatusRoute st jobId).status = statusToString v.status ∧
    (getStatusRoute st jobId).current_phase =
      (match getProgress st.progress jobId with
       | some p => if p.current_phase == "" then "initializing" else p.current_phase
       | none => "initializing") := by
  unfold getStatusRoute
  rw [hv]
  exact ⟨rfl, rfl⟩

/-- C5 witness: the amended theorem at the completed job with a stale
progress entry. -/
theorem C5_witness :
    findVideoByJob stC5.videos "j1" = some vC5 ∧
    (getStatusRoute stC5 "j1").status = statusToString vC5.status ∧
    (getStatusRoute stC5 "j1").current_phase = "downloading" := by
  have h := C5_terminal_status_kept_phase_from_progress stC5 "j1" vC5 (by decide)
  refine ⟨by decide, h.1, ?_⟩
  rw [h.2]
  decide

/-- With Redis reachable, `addDownloadJob` succeeds and returns the fresh
job id and the updated stores. -/
theorem addDownloadJob_of_up {st : ServerState} (p : DownloadPayload)
    (h : st.queueUp = true) :
    addDownloadJob st p = some (mkJobId st.nextJobId,
      { st with
        queue := st.queue ++
          [{ job_id := mkJobId st.nextJobId, video_id := p.video_id,
             user_id := p.user_id, url := p.url,
             start_time := p.start_time, end_time := p.end_time,
             format_preference := p.format_preference,
             resolution_preference := p.resolution_preference }],
        progress := progressSet st.progress (mkJobId st.nextJobId) initialProgress,
        nextJobId := st.nextJobId + 1 }) := by
  unfold addDownloadJob
  rw [if_pos h]

/-- The enqueue tail of the download route only rewrites records to status
`processing`; everything else in the collection is left as it was. -/
theorem downloadEnqueue_videos_mem (st : ServerState) (video : VideoRecord)
    (reqUserId fp rp : String) :
    ∀ v' ∈ (downloadEnqueue st video reqUserId fp rp).2.videos,
      v' ∈ st.videos ∨ v'.status = .processing := by
  unfold downloadEnqueue
  split
  · exact fun v' hv' => .inl hv'
  · rename_i jobId st2 heq
    have h2 := (addDownloadJob_eq_some heq).2
    subst h2
    intro v' hv'
    simp only [List.mem_map] at hv'
    obtain ⟨w, hw, hfw⟩ := hv'
    by_cases hid : (w.id == video.id) = true
    · right
      rw [← hfw]
      simp [hid]
    · left
      rw [← hfw]
      simp only [hid, if_false]
      simpa using hw

/-- Any record present after a download-route call was either already stored
unchanged or now has status `processing`. -/
theorem postDownload_videos_mem (cfg : AppConfig) (st : ServerState) (videoId : Nat)
    (uid : String) (body : DownloadBody) :
    ∀ v' ∈ (postDownload cfg st videoId uid body).2.videos,
      v' ∈ st.videos ∨ v'.status = .processing := by
  simp only [postDownload]
  split
  · exact fun v' hv' => .inl hv'
  split
  · exact fun v' hv' => .inl hv'
  split
  · exact fun v' hv' => .inl hv'
  · rename_i video heq
    split
    · exact fun v' hv' => .inl hv'
    split
    · exact fun v' hv' => .inl hv'
    split
    · exact fun v' hv' => .inl hv'
    · exact downloadEnqueue_videos_mem st video uid _ _

/-- C2 counterexample: the download route moves a job whose status is
`completed` (file stored locally, so no s3 link can be returned) back to
`processing` by re-enqueueing it — a backward edge out of a terminal status
that the claimed state machine forbids. -/
theorem C2_counterexample :
    vC2.status = .completed ∧
    (postDownload cfg0 stC2 0 "u1" emptyBody).1 = .queuedResp "job-0" ∧
    ((postDownload cfg0 stC2 0 "u1" emptyBody).2.videos.map (fun v => v.status)) =
      [.processing] := by
  decide

/-- C2 amended (corrected): the download route never writes any status other
than `processing`: every stored record is either untouched or set to
`processing`; a job already `processing` is left unchanged, as is a
`completed` job whose s3-stored file is retrievable — but a `completed` job
without a retrievable s3 file (and likewise an `expired` or `pending` one)
is re-enqueued and moved back to `processing`, so `completed` is not a
trap state as claimed. -/
theorem C2_status_transitions (cfg : AppConfig) (st : ServerState) (videoId : Nat)
    (uid : String) (body : DownloadBody) (v : VideoRecord)
    (hfind : st.videos.find? (fun w => w.id == videoId) = some v) :
    (∀ v' ∈ (postDownload cfg st videoId uid body).2.videos,
       v' ∈ st.videos ∨ v'.status = .processing) ∧
    (v.status = .processing → (postDownload cfg st videoId uid body).2 = st) ∧
    (v.status = .completed → jsTruthy v.file_path = true → v.storage_mode = "s3" →
       (postDownload cfg st videoId uid body).2 = st) := by
  refine ⟨postDownload_videos_mem cfg st videoId uid body, ?_, ?_⟩
  · intro hv
    simp only [postDownload]
    split
    · rfl
    split
    · rfl
    rw [hfind]
    split
    · rename_i heq
      exact absurd heq (by simp)
    rename_i video heq
    injection heq with hvv
    subst hvv
    split
    · rfl
    split
    · rfl
    split
    · rfl
    · rename_i hnotproc
      exact absurd (by simp [hv]) hnotproc
  · intro hv hfile hs3
    simp only [postDownload]
    split
    · rfl
    split
    · rfl
    rw [hfind]
    split
    · rename_i heq
      exact absurd heq (by simp)
    rename_i video heq
    injection heq with hvv
    subst hvv
    split
    · rfl
    split
    · rfl
    · rename_i hnotcompl
      exact absurd (by simp [hv, hfile, hs3]) hnotcompl

/-- With no explicit preferences in the body, both preference-validation
guards of the download route are skipped. -/
theorem validationIfs_false (cfg : AppConfig) :
    ¬(decide (jsOrStr emptyBody.format_preference cfg.defaultVideoFormat ≠
        cfg.defaultVideoFormat) &&
      !(validateFormatPreference (jsOrStr emptyBody.format_preference
        cfg.defaultVideoFormat)).1) = true ∧
    ¬(decide (jsOrStr emptyBody.resolution_preference cfg.defaultVideoResolution ≠
        cfg.defaultVideoResolution) &&
      !(validateResolutionPreference (jsOrStr emptyBody.resolution_preference
        cfg.defaultVideoResolution)).1) = true := by
  constructor <;> simp [emptyBody, jsOrStr]

/-- When the caller owns the video, the video is in none of the two
short-circuit cases (processing, or completed with a retrievable s3 file)
and no explicit preferences are sent, the download route reaches its
enqueue tail. -/
theorem postDownload_emptyBody_reduce (cfg : AppConfig) (st : ServerState)
    (videoId : Nat) (uid : String) (v : VideoRecord)
    (hfind : st.videos.find? (fun w => w.id == videoId) = some v)
    (huser : v.user_id = uid)
    (hnc : ¬(v.status == VideoStatus.completed && jsTruthy v.file_path &&
             v.storage_mode == "s3") = true)
    (hnp : v.status ≠ .processing) :
    postDownload cfg st videoId uid emptyBody =
      downloadEnqueue st v uid cfg.defaultVideoFormat cfg.defaultVideoResolution := by
  simp only [postDownload]
  rw [if_neg (validationIfs_false cfg).1, if_neg (validationIfs_false cfg).2, hfind]
  simp only []
  rw [if_neg (show ¬ v.user_id ≠ uid by simp [huser]), if_neg hnc,
      if_neg (show ¬ (v.status == VideoStatus.processing) = true by simp [hnp])]
  simp [emptyBody, jsOrStr]

/-- A processing video short-circuits the download route into the 202
response without any state change. -/
theorem postDownload_emptyBody_processing (cfg : AppConfig) (st : ServerState)
    (videoId : Nat) (uid : String) (v : VideoRecord)
    (hfind : st.videos.find? (fun w => w.id == videoId) = some v)
    (huser : v.user_id = uid)
    (hv : v.status = .processing) :
    postDownload cfg st videoId uid emptyBody = (.processingResp v.job_id, st) := by
  simp only [postDownload]
  rw [if_neg (validationIfs_false cfg).1, if_neg (validationIfs_false cfg).2, hfind]
  simp only []
  rw [if_neg (show ¬ v.user_id ≠ uid by simp [huser]),
      if_neg (show ¬(v.status == VideoStatus.completed && jsTruthy v.file_path &&
        v.storage_mode == "s3") = true by simp [hv]),
      if_pos (show (v.status == VideoStatus.processing) = true by simp [hv])]

/-- C6 counterexample: retry (the download route) on a job whose status is
`pending` — not `failed` — is not rejected with an invalid-transition error:
it enqueues a new queue entry and flips the record to `processing`. -/
theorem C6_counterexample :
    vC6.status = .pending ∧ vC6.status ≠ .failed ∧
    (postDownload cfg0 stC6 0 "u1" emptyBody).1 = .queuedResp "job-0" ∧
    ((postDownload cfg0 stC6 0 "u1" emptyBody).2.videos.map (fun v => v.status)) =
      [.processing] ∧
    (postDownload cfg0 stC6 0 "u1" emptyBody).2.queue.length = stC6.queue.length + 1 := by
  decide

/-- C6 amended (corrected): the download route performs the retry reset only
from `failed` (status ends at `processing` after re-enqueueing, the stored
error is cleared, and the queue grows by one); a `processing` job gets a
202 response with no state change; but a non-failed job is not rejected
with an invalid-transition error — a `pending` (or `expired`, or
`completed`-without-s3-file) job is enqueued and marked `processing` as
well. -/
theorem C6_retry_guard (cfg : AppConfig) (st : ServerState) (videoId : Nat)
    (uid : String) (v : VideoRecord)
    (hfind : st.videos.find? (fun w => w.id == videoId) = some v)
    (huser : v.user_id = uid) (hup : st.queueUp = true) :
    (v.status = .failed →
      (postDownload cfg st videoId uid emptyBody).1 = .queuedResp (mkJobId st.nextJobId) ∧
      (∃ v' ∈ (postDownload cfg st videoId uid emptyBody).2.videos,
         v'.id = v.id ∧ v'.status = .processing ∧ v'.error_message = none ∧
         v'.job_id = some (mkJobId st.nextJobId)) ∧
      (postDownload cfg st videoId uid emptyBody).2.queue.length = st.queue.length + 1) ∧
    (v.status = .processing →
      postDownload cfg st videoId uid emptyBody = (.processingResp v.job_id, st)) ∧
    (v.status = .pending →
      (postDownload cfg st videoId uid emptyBody).1 = .queuedResp (mkJobId st.nextJobId) ∧
      (postDownload cfg st videoId uid emptyBody).2.queue.length = st.queue.length + 1) := by
  refine ⟨?_, ?_, ?_⟩
  · intro hv
    have hnc : ¬(v.status == VideoStatus.completed && jsTruthy v.file_path &&
        v.storage_mode == "s3") = true := by simp [hv]
    have hnp : v.status ≠ .processing := by simp [hv]
    rw [postDownload_emptyBody_reduce cfg st videoId uid v hfind huser hnc hnp]
    unfold downloadEnqueue
    rw [addDownloadJob_of_up _ hup]
    refine ⟨rfl, ?_, ?_⟩
    · refine ⟨_, List.mem_map.mpr ⟨v, List.mem_of_find?_eq_some hfind, rfl⟩,
        ?_, ?_, ?_, ?_⟩ <;> simp [hv]
    · simp
  · exact postDownload_emptyBody_processing cfg st videoId uid v hfind huser
  · intro hv
    have hnc : ¬(v.status == VideoStatus.completed && jsTruthy v.file_path &&
        v.storage_mode == "s3") = true := by simp [hv]
    have hnp : v.status ≠ .processing := by simp [hv]
    rw [postDownload_emptyBody_reduce cfg st videoId uid v hfind huser hnc hnp]
    unfold downloadEnqueue
    rw [addDownloadJob_of_up _ hup]
    exact ⟨rfl, by simp⟩

/-- C10 (confirmed): logout deletes only the Session whose id is embedded in
the presented token (plus, best-effort, that token's cache entry); every
other session of the same owner survives, and a private token bound to a
surviving live session still verifies afterwards — whereas change-password
deletes every session of the owner, after which such a token (absent from
the cache) no longer verifies. -/
theorem C10_logout_scoped_vs_password_change (now : Int) (st : AuthState)
    (t1 t2 : PrivToken) (p1 p2 : TokenPayload) (sid1 : String) (s2 : SessionRec)
    (c1 : String)
    (hp1 : t1.payload = some p1) (htype1 : p1.type = "private")
    (hsid1 : p1.session_id = some sid1)
    (hcache1 : cacheGet st.cache t1.hash = some c1)
    (hp2 : t2.payload = some p2) (htype2 : p2.type = "private")
    (hsid2 : p2.session_id = some s2.id) (huid2 : p2.user_id = s2.user_id)
    (hs2 : s2 ∈ st.sessions) (hlive : now < s2.expires_at)
    (hneq : s2.id ≠ sid1)
    (hcache2 : cacheGet st.cache t2.hash = none) :
    ((logoutRoute now st (some t1)).2.sessions =
       st.sessions.filter (fun r => r.id ≠ sid1)) ∧
    (∀ r ∈ st.sessions, r.id ≠ sid1 → r ∈ (logoutRoute now st (some t1)).2.sessions) ∧
    ((requirePrivateToken now (logoutRoute now st (some t1)).2 (some t2)).1 =
       .ok p2.user_id p2.session_id) ∧
    (∀ r ∈ (changePasswordSessions now st (some t1)).2.sessions,
       r.user_id ≠ p1.user_id) ∧
    (p2.user_id = p1.user_id →
      (requirePrivateToken now (changePasswordSessions now st (some t1)).2 (some t2)).1 =
        .sessionInvalid) := by
  have hauth1 : requirePrivateToken now st (some t1) = (.ok p1.user_id p1.session_id, st) := by
    simp only [requirePrivateToken, hp1]
    rw [if_neg (by simp [htype1]), hcache1]
  have hlogout : (logoutRoute now st (some t1)).2 =
      { sessions := st.sessions.filter (fun r => r.id ≠ sid1),
        cache := st.cache.filter (fun kv => kv.1 ≠ t1.hash) } := by
    simp only [logoutRoute, hauth1]
    rw [hsid1]
  have hcp : (changePasswordSessions now st (some t1)).2 =
      { sessions := st.sessions.filter (fun r => r.user_id ≠ p1.user_id),
        cache := st.cache } := by
    simp only [changePasswordSessions, hauth1]
  refine ⟨?_, ?_, ?_, ?_, ?_⟩
  · rw [hlogout]
  · intro r hr hne
    rw [hlogout]
    exact List.mem_filter.mpr ⟨hr, by simp [hne]⟩
  · rw [hlogout]
    simp only [requirePrivateToken, hp2]
    rw [if_neg (by simp [htype2])]
    rw [cacheGet_filter_none hcache2]
    have hpred : sessionMatches p2 now s2 = true := by
      simp [sessionMatches, hsid2, huid2, hlive]
    have hmem : s2 ∈ st.sessions.filter (fun r => r.id ≠ sid1) :=
      List.mem_filter.mpr ⟨hs2, by simp [hneq]⟩
    have hsome : ((st.sessions.filter (fun r => r.id ≠ sid1)).find?
        (sessionMatches p2 now)).isSome := by
      rw [List.find?_isSome]
      exact ⟨s2, hmem, hpred⟩
    obtain ⟨srec, hsrec⟩ := Option.isSome_iff_exists.mp hsome
    rw [hsrec]
  · intro r hr
    rw [hcp] at hr
    simp only [List.mem_filter, decide_eq_true_eq] at hr
    exact hr.2
  · intro heq
    rw [hcp]
    simp only [requirePrivateToken, hp2]
    rw [if_neg (by simp [htype2])]
    rw [hcache2]
    have hnone : (st.sessions.filter (fun r => r.user_id ≠ p1.user_id)).find?
        (sessionMatches p2 now) = none := by
      rw [List.find?_eq_none]
      intro x hx
      simp only [List.mem_filter, decide_eq_true_eq] at hx
      intro hcontra
      have hxu : x.user_id = p2.user_id := by
        simp only [sessionMatches, Bool.and_eq_true, beq_iff_eq,
          decide_eq_true_eq] at hcontra
        tauto
      exact absurd (hxu.trans heq) hx.2
    rw [hnone]


/-- C2 witness: the amended theorem on the local-file completed job, a
processing job and an s3-completed job. -/
theorem C2_witness :
    (∀ v' ∈ (postDownload cfg0 stC2 0 "u1" emptyBody).2.videos,
       v' ∈ stC2.videos ∨ v'.status = .processing) ∧
    (postDownload cfg0 stProc 0 "u1" emptyBody).2 = stProc ∧
    (postDownload cfg0 stC5 0 guestId emptyBody).2 = stC5 :=
  ⟨(C2_status_transitions cfg0 stC2 0 "u1" emptyBody vC2 (by decide)).1,
   (C2_status_transitions cfg0 stProc 0 "u1" emptyBody vProc (by decide)).2.1
     (by decide),
   (C2_status_transitions cfg0 stC5 0 guestId emptyBody vC5 (by decide)).2.2
     (by decide) (by decide) (by decide)⟩

/-- C6 witness: the amended theorem on a failed, a processing and a pending
job. -/
theorem C6_witness :
    (postDownload cfg0 stFail 0 "u1" emptyBody).1 =
      .queuedResp (mkJobId stFail.nextJobId) ∧
    (∃ v' ∈ (postDownload cfg0 stFail 0 "u1" emptyBody).2.videos,
       v'.id = vFail.id ∧ v'.status = .processing ∧ v'.error_message = none ∧
       v'.job_id = some (mkJobId stFail.nextJobId)) ∧
    (postDownload cfg0 stProc 0 "u1" emptyBody) = (.processingResp vProc.job_id, stProc) ∧
    (postDownload cfg0 stC6 0 "u1" emptyBody).1 = .queuedResp (mkJobId stC6.nextJobId) ∧
    (postDownload cfg0 stC6 0 "u1" emptyBody).2.queue.length = stC6.queue.length + 1 := by
  have h1 := C6_retry_guard cfg0 stFail 0 "u1" vFail (by decide) (by decide) (by decide)
  have h2 := C6_retry_guard cfg0 stProc 0 "u1" vProc (by decide) (by decide) (by decide)
  have h3 := C6_retry_guard cfg0 stC6 0 "u1" vC6 (by decide) (by decide) (by decide)
  exact ⟨(h1.1 (by decide)).1, (h1.1 (by decide)).2.1, h2.2.1 (by decide),
         (h3.2.2 (by decide)).1, (h3.2.2 (by decide)).2⟩

/-- C10 witness: the theorem on the two-session owner `alice`. -/
theorem C10_witness :
    ((logoutRoute 0 authSt0 (some tok1)).2.sessions =
       authSt0.sessions.filter (fun r => r.id ≠ "s1")) ∧
    (∀ r ∈ authSt0.sessions, r.id ≠ "s1" →
       r ∈ (logoutRoute 0 authSt0 (some tok1)).2.sessions) ∧
    ((requirePrivateToken 0 (logoutRoute 0 authSt0 (some tok1)).2 (some tok2)).1 =
       .ok "alice" (some "s2")) ∧
    (∀ r ∈ (changePasswordSessions 0 authSt0 (some tok1)).2.sessions,
       r.user_id ≠ "alice") ∧
    ((requirePrivateToken 0 (changePasswordSessions 0 authSt0 (some tok1)).2
        (some tok2)).1 = .sessionInvalid) := by
  have h := C10_logout_scoped_vs_password_change 0 authSt0 tok1 tok2
    { user_id := "alice", session_id := some "s1", type := "private" }
    { user_id := "alice", session_id := some "s2", type := "private" }
    "s1" sess2 "alice" (by decide) (by decide) (by decide) (by decide) (by decide)
    (by decide) (by decide) (by decide) (by decide) (by decide) (by decide) (by decide)
  exact ⟨h.1, h.2.1, h.2.2.1, h.2.2.2.1, h.2.2.2.2 (by decide)⟩

end YtD
